import Mathlib

/-!
Shallow embedding of `src/main.py`, a FastAPI backend exposing diagnostics
endpoints and a two-operation "wish" resource (create and list) backed by a
document store.

Modelling conventions:
* Timestamps are abstract clock ticks (`Nat`); `datetime.utcnow()` becomes an
  explicit `now : Nat` parameter, and `datetime.isoformat()` becomes the
  canonical rendering `isoformat : Nat → String` of a tick.
* The Mongo collection `"wish"` is a `Store`: a list of documents plus a
  counter from which the store assigns fresh `_id` values.
* A handler is a function from the ambient state (clock, optional store
  connection, request data) to a result paired with the final store state;
  raising `HTTPException(status, detail)` or a request-validation failure is
  an `ApiError` value.  FastAPI validates the request payload/query
  parameters against the declared schema (`WishCreate`, `Query(ge, le)`)
  before the handler body runs; a failure there is rejected with the
  framework 422 validation response, which the full-request pipelines
  (`post_wishes`, `get_wishes`) model.
* The repository modules `database` (providing `db` and `create_document`)
  and `schemas` (providing `Wish`) are imported by `src/main.py` but are not
  among the analysed sources; they are modelled from the spec where noted.
-/

deriving instance DecidableEq for Except

namespace WishApi

/-- A document of the `"wish"` collection as the store holds it: the
store-assigned `_id`, and the optional fields `text` and `created_at`
(`doc.get` in the source tolerates their absence). -/
structure Document where
  id : Nat
  text : Option String
  created_at : Option Nat
deriving Repr, DecidableEq

/-- The `"wish"` collection: its documents plus the counter from which the
store assigns the next fresh `_id`. -/
structure Store where
  docs : List Document
  nextId : Nat
deriving Repr, DecidableEq

/-- Wire representation returned to clients (`WishOut` in `src/main.py`,
lines 78–81): stringified id, text, ISO-8601 timestamp string. -/
structure WishOut where
  id : String
  text : String
  created_at : String
deriving Repr, DecidableEq

/-- Rendering of an abstract UTC tick as its ISO-8601 string
(`datetime.isoformat()`); ticks are opaque, so the rendering is their
canonical decimal form. -/
def isoformat (t : Nat) : String := toString t

/-- Errors a request can terminate with: a framework-level request
validation failure (FastAPI rejects these with status 422), or a raised
`HTTPException` carrying an explicit status code. -/
inductive ApiError where
  | validationError (detail : String)
  | httpException (status : Nat) (detail : String)
deriving Repr, DecidableEq

/-- HTTP status surfaced to the caller for each error kind. -/
def ApiError.status : ApiError → Nat
  | .validationError _ => 422
  | .httpException s _ => s

/-- Schema constraint of `WishCreate` (`src/main.py` lines 74–75):
`text: str = Field(..., min_length=1, max_length=500)`. -/
def wishCreateValid (text : String) : Bool :=
  1 ≤ text.length && text.length ≤ 500

/-- Modelled from the spec: the `Wish` schema lives in the `schemas` module
of the repository, which is not among the analysed sources.  Spec §4.1: the
validator accepts a candidate text iff `1 ≤ length(text) ≤ 500`. -/
def wishSchemaValid (text : String) : Bool :=
  1 ≤ text.length && text.length ≤ 500

/-- Modelled from the spec: `create_document` lives in the `database` module
of the repository, which is not among the analysed sources.  Spec §4.2
step 3: it inserts a new document containing the text and a server-assigned
creation timestamp, the store assigns the unique identifier, and the
identifier of the inserted document is returned. -/
def create_document (now : Nat) (st : Store) (text : String) : Nat × Store :=
  (st.nextId, ⟨st.docs ++ [⟨st.nextId, some text, some now⟩], st.nextId + 1⟩)

/-- `db["wish"].find_one({"_id": inserted_id})` (`src/main.py` line 94). -/
def find_one (st : Store) (i : Nat) : Option Document :=
  st.docs.find? (fun d => d.id == i)

/-- The per-document wire mapping shared verbatim by both handlers
(`src/main.py` lines 98–102 and 115–121): stringify `_id`, default a
missing `text` to `""`, format `created_at` as ISO-8601 and default a
missing one to the current UTC time. -/
def render_doc (now : Nat) (d : Document) : WishOut :=
  { id := toString d.id,
    text := d.text.getD "",
    created_at :=
      match d.created_at with
      | some t => isoformat t
      | none => isoformat now }

/-- The re-read step of the create handler (`src/main.py` lines 94–102):
if `find_one` returned nothing, `HTTPException(500, "Failed to create
wish")`; otherwise map the document to the wire representation. -/
def readBack (now : Nat) (doc : Option Document) : Except ApiError WishOut :=
  match doc with
  | none => .error (.httpException 500 "Failed to create wish")
  | some d => .ok (render_doc now d)

/-- Body of `create_wish` (`src/main.py` lines 85–102), entered with a
payload that already passed the `WishCreate` schema: reject with
`HTTPException(500, "Database not available")` when `db is None`; run the
`Wish` schema validator (an uncaught pydantic error inside a handler is a
500 internal server error); insert via `create_document`; re-read by the
assigned id and map.  Returns the result together with the final store. -/
def create_wish (now : Nat) (db : Option Store) (text : String) :
    Except ApiError WishOut × Option Store :=
  match db with
  | none => (.error (.httpException 500 "Database not available"), none)
  | some st =>
    if wishSchemaValid text then
      let r := create_document now st text
      (readBack now (find_one r.2 r.1), some r.2)
    else
      (.error (.httpException 500 "Internal Server Error"), some st)

/-- Full `POST /api/wishes` pipeline: FastAPI validates the body against
`WishCreate` before the handler runs; a failure is a 422 request-validation
rejection that never reaches the handler (and hence never touches the
store). -/
def post_wishes (now : Nat) (db : Option Store) (text : String) :
    Except ApiError WishOut × Option Store :=
  if wishCreateValid text then create_wish now db text
  else (.error (.validationError "text length must be between 1 and 500"), db)

/-- Query-parameter constraint of `list_wishes` (`src/main.py` line 106):
`Query(default=60, ge=1, le=200)`. -/
def limitValid (limit : Int) : Bool :=
  1 ≤ limit && limit ≤ 200

/-- Default of the `limit` query parameter (`src/main.py` line 106). -/
def default_limit : Int := 60

/-- Mongo comparison of `created_at` keys: a missing field sorts as null,
below every present value. -/
def createdAtKeyLe : Option Nat → Option Nat → Bool
  | none, _ => true
  | some _, none => false
  | some a, some b => a ≤ b

/-- Document order produced by `.sort("created_at", -1)`: `a` may precede
`b` iff the key of `b` is ≤ the key of `a` (descending, missing keys
last). -/
def docBefore (a b : Document) : Prop :=
  createdAtKeyLe b.created_at a.created_at = true

instance : DecidableRel docBefore :=
  fun a b => instDecidableEqBool (createdAtKeyLe b.created_at a.created_at) true

lemma createdAtKeyLe_total (x y : Option Nat) :
    createdAtKeyLe x y = true ∨ createdAtKeyLe y x = true := by
  cases x <;> cases y <;> simp [createdAtKeyLe]
  exact Nat.le_total _ _

lemma createdAtKeyLe_trans {x y z : Option Nat}
    (h1 : createdAtKeyLe x y = true) (h2 : createdAtKeyLe y z = true) :
    createdAtKeyLe x z = true := by
  cases x <;> cases y <;> cases z <;> simp [createdAtKeyLe] at *
  omega

instance : IsTotal Document docBefore where
  total a b := createdAtKeyLe_total b.created_at a.created_at

instance : IsTrans Document docBefore where
  trans _ _ _ hab hbc := createdAtKeyLe_trans hbc hab

/-- `db["wish"].find({}).sort("created_at", -1)` (`src/main.py` lines
110–112): all documents, ordered by `created_at` descending. -/
def sortDocs (docs : List Document) : List Document :=
  docs.insertionSort docBefore

/-- Body of `list_wishes` (`src/main.py` lines 106–124), entered with a
limit that already passed the query-parameter bounds: reject when `db is
None`, else sort descending, truncate to `limit`, and map each document to
the wire representation.  Returns the result with the final store. -/
def list_wishes (now : Nat) (db : Option Store) (limit : Int) :
    Except ApiError (List WishOut) × Option Store :=
  match db with
  | none => (.error (.httpException 500 "Database not available"), none)
  | some st =>
    (.ok (((sortDocs st.docs).take limit.toNat).map (render_doc now)), some st)

/-- Full `GET /api/wishes` pipeline: FastAPI validates the `limit` query
parameter against `ge=1, le=200` before the handler runs; an out-of-range
value is a 422 request-validation rejection that never reaches the
handler. -/
def get_wishes (now : Nat) (db : Option Store) (limit : Int) :
    Except ApiError (List WishOut) × Option Store :=
  if limitValid limit then list_wishes now db limit
  else (.error (.validationError "limit must be between 1 and 200"), db)

/-- A connected store handle as the `/test` endpoint probes it: the `name`
attribute when present, and the outcome of `list_collection_names()` — a
list of names, or the message of the exception the call raised. -/
structure DbHandle where
  name : Option String
  list_collection_names : Except String (List String)
deriving Repr

/-- Ambient state the `/test` endpoint inspects: the optional store handle
`db` and whether the `DATABASE_URL` / `DATABASE_NAME` environment variables
are set. -/
structure Env where
  db : Option DbHandle
  database_url_set : Bool
  database_name_set : Bool
deriving Repr

/-- Response payload of the `/test` endpoint (`src/main.py` lines 36–43). -/
structure TestResponse where
  backend : String
  database : String
  database_url : String
  database_name : String
  connection_status : String
  collections : List String
deriving Repr, DecidableEq

/-- `str(e)[:50]`: truncation of an exception message to 50 characters. -/
def truncate50 (s : String) : String := s.take 50

/-- `test_database` (`src/main.py` lines 33–70).  Starting from the default
payload, the connected branch fills in the connectivity fields and guards
the `list_collection_names()` probe with its own try/except, so a failure
there only rewrites the `database` field; the final two assignments
overwrite `database_url` / `database_name` from the environment variables
unconditionally.  Every fallible probe is guarded, so the endpoint always
returns a payload — mirrored here by `test_database` being a total function
into `TestResponse`. -/
def test_database (env : Env) : TestResponse :=
  match env.db with
  | some d =>
    { backend := "✅ Running",
      database :=
        match d.list_collection_names with
        | .ok _ => "✅ Connected & Working"
        | .error e => "⚠️  Connected but Error: " ++ truncate50 e,
      database_url := if env.database_url_set then "✅ Set" else "❌ Not Set",
      database_name := if env.database_name_set then "✅ Set" else "❌ Not Set",
      connection_status := "Connected",
      collections :=
        match d.list_collection_names with
        | .ok cs => cs.take 10
        | .error _ => [] }
  | none =>
    { backend := "✅ Running",
      database := "⚠️  Available but not initialized",
      database_url := if env.database_url_set then "✅ Set" else "❌ Not Set",
      database_name := if env.database_name_set then "✅ Set" else "❌ Not Set",
      connection_status := "Not Connected",
      collections := [] }

/-!
Theorems settling the claims, in claim order.
-/

/-- Claim C1: the create-wish operation accepts a text value iff its length
is between 1 and 500 characters inclusive; for any text of length 0 or
greater than 500, creation fails with a validation error and no record is
persisted — the store state is returned unchanged, whatever it was, because
the schema rejection precedes the handler and hence every store
interaction. -/
theorem create_text_validation (now : Nat) (db : Option Store) (t : String) :
    (wishCreateValid t = true ↔ 1 ≤ t.length ∧ t.length ≤ 500)
    ∧ (wishCreateValid t = false →
        post_wishes now db t =
          (.error (.validationError "text length must be between 1 and 500"), db))
    ∧ (wishCreateValid t = true →
        ∀ msg, (post_wishes now db t).1 ≠ .error (.validationError msg)) := by
  refine ⟨by simp [wishCreateValid], ?_, ?_⟩
  · intro h
    simp [post_wishes, h]
  · intro h msg
    simp only [post_wishes, h, if_true]
    cases db with
    | none => simp [create_wish]
    | some st =>
      simp only [create_wish]
      by_cases hs : wishSchemaValid t = true
      · simp only [hs, if_true]
        cases hfind : find_one (create_document now st t).2 (create_document now st t).1 with
        | none => simp [readBack, hfind]
        | some d => simp [readBack, hfind]
      · simp [hs]

/-- Witness for C1 at concrete inputs: the empty text is rejected with the
validation error and the store is untouched, while a valid text is not
rejected by validation. -/
theorem create_text_validation_witness :
    (post_wishes 0 (some ⟨[], 5⟩) "" =
      (.error (.validationError "text length must be between 1 and 500"), some ⟨[], 5⟩))
    ∧ (post_wishes 0 (some ⟨[], 5⟩) "ok").1 ≠ .error (.validationError "x") :=
  ⟨(create_text_validation 0 (some ⟨[], 5⟩) "").2.1 (by decide),
   (create_text_validation 0 (some ⟨[], 5⟩) "ok").2.2 (by decide) "x"⟩

/-- Claim C2: for every valid text and an available store whose documents
all carry identifiers below the next fresh one, create-wish inserts a
document, re-reads it by the store-assigned identifier, and returns a wire
record whose text equals the input exactly, whose id is the stringified
stored identifier, and whose created_at is the stored timestamp in
ISO-8601 form; and a re-read that returns nothing yields the
PersistenceError (`HTTPException(500, "Failed to create wish")`). -/
theorem create_roundtrip (now : Nat) (st : Store) (t : String)
    (hvalid : wishCreateValid t = true)
    (hids : ∀ d ∈ st.docs, d.id < st.nextId) :
    post_wishes now (some st) t =
      (.ok ⟨toString st.nextId, t, isoformat now⟩,
       some ⟨st.docs ++ [⟨st.nextId, some t, some now⟩], st.nextId + 1⟩)
    ∧ readBack now none = .error (.httpException 500 "Failed to create wish") := by
  have hs : wishSchemaValid t = true := hvalid
  refine ⟨?_, rfl⟩
  have hnone : st.docs.find? (fun d => d.id == st.nextId) = none := by
    rw [List.find?_eq_none]
    intro d hd
    simpa using Nat.ne_of_lt (hids d hd)
  simp only [post_wishes, hvalid, if_true, create_wish, hs, create_document, find_one,
    List.find?_append, hnone, Option.none_orElse, Option.none_or, List.find?_cons,
    beq_self_eq_true, cond_true, readBack, render_doc, Option.getD_some]

/-- Witness for C2: creating `"world peace"` against a one-document store
appends the new document and echoes the text, stringified id and
timestamp. -/
theorem create_roundtrip_witness :
    post_wishes 7 (some ⟨[⟨0, some "a", some 1⟩], 1⟩) "world peace" =
      (.ok ⟨toString (1 : Nat), "world peace", isoformat 7⟩,
       some ⟨[⟨0, some "a", some 1⟩, ⟨1, some "world peace", some 7⟩], 2⟩)
    ∧ readBack 7 none = .error (.httpException 500 "Failed to create wish") :=
  create_roundtrip 7 ⟨[⟨0, some "a", some 1⟩], 1⟩ "world peace" (by decide)
    (by intro d hd; simp at hd; subst hd; decide)

/-- Claim C3: the default limit 60 is within bounds; for every limit in
`[1, 200]` the listing returns at most `limit` records; and for every limit
outside `[1, 200]` the request is rejected with a validation error whose
response does not depend on the store — the store state is returned
unchanged, so no store query is made. -/
theorem list_limit_bounds (now : Nat) (db : Option Store) (limit : Int) :
    limitValid default_limit = true
    ∧ (limitValid limit = true → ∀ st recs, db = some st →
        (get_wishes now db limit).1 = .ok recs → (recs.length : Int) ≤ limit)
    ∧ (limitValid limit = false →
        get_wishes now db limit =
          (.error (.validationError "limit must be between 1 and 200"), db)) := by
  refine ⟨by decide, ?_, ?_⟩
  · intro h st recs hdb hres
    subst hdb
    simp only [get_wishes, h, if_true, list_wishes] at hres
    have hrecs : recs = ((sortDocs st.docs).take limit.toNat).map (render_doc now) := by
      simpa using hres.symm
    have hlen : recs.length ≤ limit.toNat := by
      rw [hrecs, List.length_map, List.length_take]
      exact min_le_left _ _
    have h1 : (1 : Int) ≤ limit := by
      simp [limitValid] at h
      exact h.1
    omega
  · intro h
    simp [get_wishes, h]

/-- Witness for C3: limit 1 on a one-document store yields one record, and
limit 0 is rejected with the store untouched. -/
theorem list_limit_bounds_witness :
    limitValid default_limit = true
    ∧ ((1 : Nat) : Int) ≤ 1
    ∧ (get_wishes 0 (some ⟨[], 0⟩) 0 =
        (.error (.validationError "limit must be between 1 and 200"), some ⟨[], 0⟩)) :=
  ⟨(list_limit_bounds 0 none 0).1,
   (list_limit_bounds 5 (some ⟨[⟨0, some "a", some 1⟩], 1⟩) 1).2.1 (by decide)
     ⟨[⟨0, some "a", some 1⟩], 1⟩ [⟨"0", "a", isoformat 1⟩] rfl (by decide),
   (list_limit_bounds 0 (some ⟨[], 0⟩) 0).2.2 (by decide)⟩

/-- Claim C4: when every stored document carries a creation timestamp (the
invariant every write of this system maintains), the sequence returned by
list-wishes is ordered by creation time descending: for any two returned
records A before B, the timestamp rendered into A is ≥ the one rendered
into B. -/
theorem list_sorted_desc (now : Nat) (st : Store) (limit : Int) (recs : List WishOut)
    (hts : ∀ d ∈ st.docs, d.created_at.isSome)
    (hres : (get_wishes now (some st) limit).1 = .ok recs) :
    ∀ i j : Fin recs.length, (i : Nat) ≤ (j : Nat) →
      ∃ a b : Nat, (recs.get i).created_at = isoformat a
        ∧ (recs.get j).created_at = isoformat b ∧ b ≤ a := by
  by_cases hv : limitValid limit = true
  · have hrecs : recs = ((sortDocs st.docs).take limit.toNat).map (render_doc now) := by
      simp only [get_wishes, hv, if_true, list_wishes] at hres
      simpa using hres.symm
    subst hrecs
    set ds := (sortDocs st.docs).take limit.toNat with hds_def
    have hall : ∀ d ∈ ds, d.created_at.isSome := by
      intro d hd
      exact hts d ((List.mem_insertionSort docBefore).mp (List.take_subset _ _ hd))
    have hpair : ds.Pairwise docBefore :=
      List.Pairwise.sublist (List.take_sublist _ _) (List.sorted_insertionSort docBefore st.docs)
    intro i j hij
    have hi : (i : Nat) < ds.length := by simpa using i.isLt
    have hj : (j : Nat) < ds.length := by simpa using j.isLt
    obtain ⟨a, ha⟩ := Option.isSome_iff_exists.mp (hall (ds.get ⟨i, hi⟩) (ds.get_mem _ _))
    obtain ⟨b, hb⟩ := Option.isSome_iff_exists.mp (hall (ds.get ⟨j, hj⟩) (ds.get_mem _ _))
    rw [List.get_eq_getElem] at ha hb
    refine ⟨a, b, ?_, ?_, ?_⟩
    · simp [render_doc, ha]
    · simp [render_doc, hb]
    · rcases eq_or_lt_of_le hij with heq | hlt
      · obtain rfl : i = j := Fin.ext heq
        exact le_of_eq (Option.some.inj (hb.symm.trans ha))
      · have hdb := List.pairwise_iff_get.mp hpair ⟨i, hi⟩ ⟨j, hj⟩ (Fin.mk_lt_mk.mpr hlt)
        unfold docBefore at hdb
        simp only [List.get_eq_getElem] at hdb
        rw [hb, ha] at hdb
        simpa [createdAtKeyLe] using hdb
  · simp [get_wishes, hv] at hres

/-- Witness for C4: listing a store holding timestamps 1 and 5 returns the
records newest first, with the first rendered timestamp ≥ the second. -/
theorem list_sorted_desc_witness :
    ∃ a b : Nat,
      (([⟨"1", "b", isoformat 5⟩, ⟨"0", "a", isoformat 1⟩] : List WishOut).get
        (0 : Fin 2)).created_at = isoformat a
      ∧ (([⟨"1", "b", isoformat 5⟩, ⟨"0", "a", isoformat 1⟩] : List WishOut).get
        (1 : Fin 2)).created_at = isoformat b
      ∧ b ≤ a :=
  list_sorted_desc 9 ⟨[⟨0, some "a", some 1⟩, ⟨1, some "b", some 5⟩], 2⟩ 60
    [⟨"1", "b", isoformat 5⟩, ⟨"0", "a", isoformat 1⟩] (by decide) (by decide)
    (0 : Fin 2) (1 : Fin 2) (by decide)

/-- Claim C5, corrected: on `POST /api/wishes` a store-unavailable
condition is surfaced as a 500 server error, but a validation failure is
rejected by the framework request validation with status 422, not 500. -/
theorem create_error_status (now : Nat) (db : Option Store) (t : String) :
    (db = none → wishCreateValid t = true →
      (post_wishes now db t).1 = .error (.httpException 500 "Database not available")
      ∧ (ApiError.httpException 500 "Database not available").status = 500)
    ∧ (wishCreateValid t = false →
      (post_wishes now db t).1 = .error (.validationError "text length must be between 1 and 500")
      ∧ (ApiError.validationError "text length must be between 1 and 500").status = 422) := by
  constructor
  · rintro rfl h
    exact ⟨by simp [post_wishes, h, create_wish], rfl⟩
  · intro h
    exact ⟨by simp [post_wishes, h], rfl⟩

/-- Witness for C5 (amended form) at concrete inputs: a valid text with no
store yields the 500 store-unavailable error, and an empty text yields the
validation rejection. -/
theorem create_error_status_witness :
    (post_wishes 0 none "hi").1 = .error (.httpException 500 "Database not available")
    ∧ (post_wishes 1 (some ⟨[], 0⟩) "").1
      = .error (.validationError "text length must be between 1 and 500") :=
  ⟨((create_error_status 0 none "hi").1 rfl (by decide)).1,
   ((create_error_status 1 (some ⟨[], 0⟩) "").2 (by decide)).1⟩

/-- Counterexample to C5 as stated: submitting the empty text against an
available store fails with the request-validation error, whose surfaced
status is 422, not a 500 server error. -/
theorem create_error_status_cex :
    ((post_wishes 0 (some ⟨[], 0⟩) "").1
      = Except.error (ApiError.validationError "text length must be between 1 and 500"))
    ∧ (ApiError.validationError "text length must be between 1 and 500").status ≠ 500 := by
  decide

/-- Claim C6, corrected: inside the handler the store check does come
first — with no store connection the handler outcome is the
store-unavailable error for every text, independently of the text and
hence before the `Wish` validator can run; but the framework validates the
payload against `WishCreate` before the handler, so a schema-invalid text
is rejected as a validation error even when no store connection exists. -/
theorem store_check_first (now : Nat) (t u : String) :
    create_wish now none t = create_wish now none u
    ∧ create_wish now none t = (.error (.httpException 500 "Database not available"), none)
    ∧ (wishCreateValid t = true →
        (post_wishes now none t).1 = .error (.httpException 500 "Database not available"))
    ∧ (wishCreateValid t = false →
        (post_wishes now none t).1
          = .error (.validationError "text length must be between 1 and 500")) := by
  refine ⟨rfl, rfl, ?_, ?_⟩
  · intro h
    simp [post_wishes, h, create_wish]
  · intro h
    simp [post_wishes, h]

/-- Witness for C6 (amended form): with no store, a valid text is rejected
as store-unavailable while the empty text is rejected by validation. -/
theorem store_check_first_witness :
    (post_wishes 3 none "hello").1 = .error (.httpException 500 "Database not available")
    ∧ (post_wishes 3 none "").1 = .error (.validationError "text length must be between 1 and 500") :=
  ⟨(store_check_first 3 "hello" "x").2.2.1 (by decide),
   (store_check_first 3 "" "x").2.2.2 (by decide)⟩

/-- Counterexample to C6 as stated: with no store connection, a request
carrying the (invalid) empty text is rejected with the validation error,
not with the store-unavailable error. -/
theorem store_check_first_cex :
    (post_wishes 0 none "").1 = .error (.validationError "text length must be between 1 and 500")
    ∧ (post_wishes 0 none "").1 ≠ .error (.httpException 500 "Database not available") := by
  decide

/-- Claim C7: a stored document lacking a created_at value is rendered with
the current UTC time by the shared per-record mapping of both handlers, and
listing always renders one wire record per (truncated-to-limit) stored
document, whatever fields the documents lack — no record aborts the
batch. -/
theorem missing_created_at_defaults (now : Nat) (st : Store) (limit : Int) :
    (∀ d : Document, d.created_at = none → (render_doc now d).created_at = isoformat now)
    ∧ (limitValid limit = true →
        ∃ recs, (get_wishes now (some st) limit).1 = .ok recs
          ∧ recs.length = min limit.toNat st.docs.length) := by
  constructor
  · intro d hd
    simp [render_doc, hd]
  · intro h
    refine ⟨((sortDocs st.docs).take limit.toNat).map (render_doc now), ?_, ?_⟩
    · simp [get_wishes, h, list_wishes]
    · simp [List.length_map, List.length_take, sortDocs, List.length_insertionSort]

/-- Witness for C7: a document with no created_at renders with the ambient
time, and a two-document store with one such document still lists both
records. -/
theorem missing_created_at_defaults_witness :
    (render_doc 4 ⟨2, some "x", none⟩).created_at = isoformat 4
    ∧ ∃ recs,
        (get_wishes 4 (some ⟨[⟨2, some "x", none⟩, ⟨3, some "y", some 9⟩], 4⟩) 60).1 = .ok recs
        ∧ recs.length = min (60 : Int).toNat 2 :=
  ⟨(missing_created_at_defaults 4 ⟨[], 0⟩ 60).1 ⟨2, some "x", none⟩ rfl,
   (missing_created_at_defaults 4 ⟨[⟨2, some "x", none⟩, ⟨3, some "y", some 9⟩], 4⟩ 60).2
     (by decide)⟩

lemma render_doc_now_indep (n₁ n₂ : Nat) (d : Document) (h : d.created_at.isSome) :
    render_doc n₁ d = render_doc n₂ d := by
  obtain ⟨t, ht⟩ := Option.isSome_iff_exists.mp h
  simp [render_doc, ht]

/-- Claim C8: listing is idempotent and read-only — two list calls with the
same limit against the same store state (every stored document carrying its
creation timestamp, as every write of this system guarantees) return the
same response even at different clock times, and the store state is
returned unchanged by the read. -/
theorem list_idempotent (now₁ now₂ : Nat) (db : Option Store) (limit : Int)
    (hts : ∀ st, db = some st → ∀ d ∈ st.docs, d.created_at.isSome) :
    get_wishes now₁ db limit = get_wishes now₂ db limit
    ∧ (get_wishes now₁ db limit).2 = db := by
  constructor
  · unfold get_wishes
    by_cases hv : limitValid limit = true
    · simp only [hv, if_true]
      cases db with
      | none => rfl
      | some st =>
        simp only [list_wishes]
        have hmap : ((sortDocs st.docs).take limit.toNat).map (render_doc now₁)
            = ((sortDocs st.docs).take limit.toNat).map (render_doc now₂) := by
          apply List.map_congr_left
          intro d hd
          apply render_doc_now_indep
          exact hts st rfl d ((List.mem_insertionSort docBefore).mp (List.take_subset _ _ hd))
        rw [hmap]
    · simp [hv]
  · unfold get_wishes
    by_cases hv : limitValid limit = true
    · cases db <;> simp [hv, list_wishes]
    · simp [hv]

/-- Witness for C8: two listings of a one-document store at clock times 1
and 2 coincide, and the read hands the store back unchanged. -/
theorem list_idempotent_witness :
    get_wishes 1 (some ⟨[⟨0, some "a", some 3⟩], 1⟩) 60
      = get_wishes 2 (some ⟨[⟨0, some "a", some 3⟩], 1⟩) 60
    ∧ (get_wishes 1 (some ⟨[⟨0, some "a", some 3⟩], 1⟩) 60).2
      = some ⟨[⟨0, some "a", some 3⟩], 1⟩ :=
  list_idempotent 1 2 (some ⟨[⟨0, some "a", some 3⟩], 1⟩) 60
    (by intro st hst; cases hst; decide)

/-- Claim C9: the `/test` diagnostics endpoint is total — for every
store/environment state it returns a payload (the embedding is a total
function into `TestResponse` because every fallible probe is guarded), the
backend field always reports running, at most 10 collection names are
returned, and a failing `list_collection_names` probe only degrades the
database field to an error-description string while the rest of the
payload is still produced. -/
theorem test_endpoint_resilient (env : Env) :
    (test_database env).backend = "✅ Running"
    ∧ (test_database env).collections.length ≤ 10
    ∧ (∀ d, env.db = some d →
        (test_database env).connection_status = "Connected"
        ∧ ∀ e, d.list_collection_names = .error e →
            (test_database env).database = "⚠️  Connected but Error: " ++ truncate50 e
            ∧ (test_database env).collections = [])
    ∧ (env.db = none →
        (test_database env).connection_status = "Not Connected"
        ∧ (test_database env).database = "⚠️  Available but not initialized")
    ∧ (test_database env).database_url = (if env.database_url_set then "✅ Set" else "❌ Not Set")
    ∧ (test_database env).database_name
      = (if env.database_name_set then "✅ Set" else "❌ Not Set") := by
  rcases env with ⟨_ | ⟨nm, e | cs⟩, u, n⟩
  · refine ⟨rfl, by simp [test_database], ?_, fun _ => ⟨rfl, rfl⟩, rfl, rfl⟩
    intro d h
    exact Option.noConfusion h
  · refine ⟨rfl, by simp [test_database], ?_, ?_, rfl, rfl⟩
    · intro d h
      obtain rfl := Option.some.inj h
      refine ⟨rfl, fun e2 h2 => ⟨?_, rfl⟩⟩
      rw [← Except.error.inj h2]
      exact rfl
    · intro h
      exact Option.noConfusion h
  · refine ⟨rfl, ?_, ?_, ?_, rfl, rfl⟩
    · simp only [test_database, List.length_take]
      omega
    · intro d h
      obtain rfl := Option.some.inj h
      refine ⟨rfl, ?_⟩
      intro e2 h2
      exact Except.noConfusion h2
    · intro h
      exact Option.noConfusion h

/-- Witness for C9: an environment whose collection-listing probe raises
"boom" still yields a payload, with only the database field degraded. -/
theorem test_endpoint_resilient_witness :
    (test_database ⟨some ⟨some "appdb", .error "boom"⟩, true, false⟩).database
      = "⚠️  Connected but Error: " ++ truncate50 "boom"
    ∧ (test_database ⟨some ⟨some "appdb", .error "boom"⟩, true, false⟩).collections = [] :=
  ((test_endpoint_resilient ⟨some ⟨some "appdb", .error "boom"⟩, true, false⟩).2.2.1
    ⟨some "appdb", .error "boom"⟩ rfl).2 "boom" rfl

/-- Claim C10: a stored document lacking a text field is rendered with the
empty string by the per-record mapping shared by both handlers, and a
listing over a store containing such a document returns a wire record
carrying that document id with text `""` — an empty text can appear at the
public interface. -/
theorem missing_text_defaults (now : Nat) (st : Store) (limit : Int) (d : Document) :
    (∀ e : Document, e.text = none → (render_doc now e).text = "")
    ∧ (limitValid limit = true → st.docs.length ≤ limit.toNat → d ∈ st.docs → d.text = none →
        ∃ recs, (get_wishes now (some st) limit).1 = .ok recs
          ∧ ∃ r ∈ recs, r.id = toString d.id ∧ r.text = "") := by
  constructor
  · intro e he
    simp [render_doc, he]
  · intro hv hlen hd htext
    have hfull : (sortDocs st.docs).take limit.toNat = sortDocs st.docs := by
      apply List.take_of_length_le
      rw [sortDocs, List.length_insertionSort]
      exact hlen
    refine ⟨((sortDocs st.docs).take limit.toNat).map (render_doc now),
      by simp [get_wishes, hv, list_wishes], ?_⟩
    rw [hfull]
    refine ⟨render_doc now d, List.mem_map_of_mem _ ?_, ?_, ?_⟩
    · show d ∈ sortDocs st.docs
      rw [sortDocs]
      exact (List.mem_insertionSort docBefore).mpr hd
    · rfl
    · simp [render_doc, htext]

/-- Witness for C10: listing a store holding a single document with no text
field returns a record with id "7" and empty text. -/
theorem missing_text_defaults_witness :
    (render_doc 0 ⟨7, none, some 3⟩).text = ""
    ∧ ∃ recs, (get_wishes 0 (some ⟨[⟨7, none, some 3⟩], 8⟩) 60).1 = .ok recs
        ∧ ∃ r ∈ recs, r.id = toString (7 : Nat) ∧ r.text = "" :=
  ⟨(missing_text_defaults 0 ⟨[], 0⟩ 60 ⟨7, none, some 3⟩).1 ⟨7, none, some 3⟩ rfl,
   (missing_text_defaults 0 ⟨[⟨7, none, some 3⟩], 8⟩ 60 ⟨7, none, some 3⟩).2
     (by decide) (by decide) (by decide) rfl⟩

end WishApi
